import Mathlib

/-!
Verification of the apgo.org residency-directory scraper (`scraper.py`).

Python strings are modelled as `List Char`; Python's `str.split(sep)` for a
non-empty separator is modelled by `pySplit` (leftmost, non-overlapping
occurrence splitting).  Python exceptions are modelled with `Except`:
`ScrapingError` messages are carried structurally so that theorems can speak
about the data an error "carries".  The HTTP transport is an external
collaborator, so a fetch outcome (`HttpOutcome`) is an input to `scrape_page`.

Model scope: Python raises `ValueError` on `split('')`; all delimiters used by
the program are non-empty literals, and theorems about the generic extractor
take non-emptiness hypotheses where the distinction would matter.
-/

namespace ApgoScraper

/-- A Python string, modelled as its list of characters. -/
abbrev Str := List Char

/-- Structured content of the `ScrapingError` messages built by `scraper.py`. -/
inductive ScrapeMsg where
  | connectionError : ScrapeMsg
  | badStatus : Nat → ScrapeMsg
  | itemBetween : Str → Str → ScrapeMsg
deriving DecidableEq

/-- The exceptions that can escape the scraper's functions:
`ScrapingError`, `AuthError`, and `requests.exceptions.ReadTimeout`
(which `scrape_page` does not catch). -/
inductive PyErr where
  | scrapingError : ScrapeMsg → PyErr
  | authError : PyErr
  | readTimeout : PyErr
deriving DecidableEq

deriving instance DecidableEq for Except

/-- Fuel-bounded worker for `pySplit`; the fuel only has to dominate the
length of the scanned string, and each step consumes at least one character,
so the `0` case is unreachable in practice (and agrees with it anyway). -/
def pySplitGo (sep : Str) : Nat → Str → List Str
  | 0, s => [s]
  | _ + 1, [] => [[]]
  | fuel + 1, c :: rest =>
    if sep ≠ [] ∧ sep.isPrefixOf (c :: rest) then
      [] :: pySplitGo sep fuel (List.drop (sep.length - 1) rest)
    else
      match pySplitGo sep fuel rest with
      | [] => [[c]]
      | p :: t => (c :: p) :: t

/-- Python `source.split(sep)` for non-empty `sep`: split at each leftmost
non-overlapping occurrence of `sep`.  (For `sep = []` this returns `[s]`;
the Python `ValueError` case is kept out of theorems by hypotheses.) -/
def pySplit (sep s : Str) : List Str := pySplitGo sep s.length s

/-- Fuel-bounded worker for `occCount`. -/
def occCountGo (sep : Str) : Nat → Str → Nat
  | 0, _ => 0
  | _ + 1, [] => 0
  | fuel + 1, c :: rest =>
    if sep ≠ [] ∧ sep.isPrefixOf (c :: rest) then
      occCountGo sep fuel (List.drop (sep.length - 1) rest) + 1
    else
      occCountGo sep fuel rest

/-- Number of leftmost non-overlapping occurrences of `sep` in the string
(the quantity Python's `split` produces one more piece than). -/
def occCount (sep s : Str) : Nat := occCountGo sep s.length s

/-- Python's `sub in s` substring test. -/
def containsSub (pat : Str) : Str → Bool
  | [] => pat.isPrefixOf []
  | c :: rest => pat.isPrefixOf (c :: rest) || containsSub pat rest

/-- `scrape_item_between`: `source.split(before)[instance].split(after)[0]`,
with `IndexError` turned into the `ScrapingError` carrying both delimiters. -/
def scrape_item_between (source bef aft : Str) (inst : Nat) : Except PyErr Str :=
  match (pySplit bef source).get? inst with
  | none => .error (PyErr.scrapingError (ScrapeMsg.itemBetween bef aft))
  | some seg => .ok ((pySplit aft seg).headD [])

/-- `safe_scrape_item_between`: the best-effort wrapper, catching the
extraction error and substituting the empty string. -/
def safe_scrape_item_between (source bef aft : Str) (inst : Nat) : Str :=
  match scrape_item_between source bef aft inst with
  | .ok t => t
  | .error _ => []

/-- The marker `'{}.&nbsp;'.format(n)` used by `scrape_section`. -/
def sectionMarker (n : Nat) : Str := (toString n).data ++ ".&nbsp;".data

/-- `scrape_section`: strict extraction between marker `n` and marker `n+1`. -/
def scrape_section (source : Str) (n : Nat) : Except PyErr Str :=
  scrape_item_between source (sectionMarker n) (sectionMarker (n + 1)) 1

/-! ### Basic lemmas about the split model -/

theorem isPrefixOf_eq {l m : Str} : l.isPrefixOf m = true ↔ l <+: m :=
  List.isPrefixOf_iff_prefix

theorem pySplitGo_irrel2 (sep : Str) :
    ∀ (f g : Nat) (s : Str), s.length ≤ f → s.length ≤ g →
      pySplitGo sep f s = pySplitGo sep g s := by
  intro f
  induction f with
  | zero =>
    intro g s hf _
    have : s = [] := by
      cases s with
      | nil => rfl
      | cons _ _ => simp at hf
    subst this
    cases g <;> rfl
  | succ f ih =>
    intro g s hf hg
    cases s with
    | nil => cases g <;> rfl
    | cons c rest =>
      cases g with
      | zero => simp at hg
      | succ g' =>
        rw [pySplitGo, pySplitGo]
        simp only [List.length_cons] at hf hg
        by_cases h : sep ≠ [] ∧ sep.isPrefixOf (c :: rest) = true
        · rw [if_pos h, if_pos h]
          have hd : (List.drop (sep.length - 1) rest).length ≤ f := by
            simp only [List.length_drop]
            omega
          have hd' : (List.drop (sep.length - 1) rest).length ≤ g' := by
            simp only [List.length_drop]
            omega
          rw [ih g' _ hd hd']
        · rw [if_neg h, if_neg h]
          rw [ih g' rest (by omega) (by omega)]

theorem pySplitGo_irrel (sep : Str) (f : Nat) (s : Str) (h : s.length ≤ f) :
    pySplitGo sep f s = pySplit sep s :=
  pySplitGo_irrel2 sep f s.length s h (Nat.le_refl _)

theorem occCountGo_irrel2 (sep : Str) :
    ∀ (f g : Nat) (s : Str), s.length ≤ f → s.length ≤ g →
      occCountGo sep f s = occCountGo sep g s := by
  intro f
  induction f with
  | zero =>
    intro g s hf _
    have : s = [] := by
      cases s with
      | nil => rfl
      | cons _ _ => simp at hf
    subst this
    cases g <;> rfl
  | succ f ih =>
    intro g s hf hg
    cases s with
    | nil => cases g <;> rfl
    | cons c rest =>
      cases g with
      | zero => simp at hg
      | succ g' =>
        rw [occCountGo, occCountGo]
        simp only [List.length_cons] at hf hg
        by_cases h : sep ≠ [] ∧ sep.isPrefixOf (c :: rest) = true
        · rw [if_pos h, if_pos h]
          have hd : (List.drop (sep.length - 1) rest).length ≤ f := by
            simp only [List.length_drop]
            omega
          have hd' : (List.drop (sep.length - 1) rest).length ≤ g' := by
            simp only [List.length_drop]
            omega
          rw [ih g' _ hd hd']
        · rw [if_neg h, if_neg h]
          rw [ih g' rest (by omega) (by omega)]

theorem occCount_nil (sep : Str) : occCount sep [] = 0 := rfl

theorem occCount_cons_pos (sep : Str) (c : Char) (rest : Str)
    (h1 : sep ≠ []) (h2 : sep.isPrefixOf (c :: rest) = true) :
    occCount sep (c :: rest) = occCount sep (List.drop (sep.length - 1) rest) + 1 := by
  rw [occCount]
  rw [List.length_cons]
  rw [occCountGo]
  rw [if_pos ⟨h1, h2⟩]
  rw [occCountGo_irrel2 sep rest.length (List.drop (sep.length - 1) rest).length
        (List.drop (sep.length - 1) rest) (by simp only [List.length_drop]; omega)
        (Nat.le_refl _)]
  rfl

theorem occCount_cons_neg (sep : Str) (c : Char) (rest : Str)
    (h : ¬(sep ≠ [] ∧ sep.isPrefixOf (c :: rest) = true)) :
    occCount sep (c :: rest) = occCount sep rest := by
  rw [occCount]
  rw [List.length_cons]
  rw [occCountGo]
  rw [if_neg h]
  rfl

theorem pySplit_nil (sep : Str) : pySplit sep [] = [[]] := rfl

theorem pySplit_cons_pos (sep : Str) (c : Char) (rest : Str)
    (h1 : sep ≠ []) (h2 : sep.isPrefixOf (c :: rest) = true) :
    pySplit sep (c :: rest) = [] :: pySplit sep (List.drop (sep.length - 1) rest) := by
  rw [pySplit]
  rw [List.length_cons]
  rw [pySplitGo]
  rw [if_pos ⟨h1, h2⟩]
  rw [pySplitGo_irrel sep rest.length _ (by simp only [List.length_drop]; omega)]

theorem pySplit_cons_neg (sep : Str) (c : Char) (rest : Str)
    (h : ¬(sep ≠ [] ∧ sep.isPrefixOf (c :: rest) = true)) :
    pySplit sep (c :: rest) =
      match pySplit sep rest with
      | [] => [[c]]
      | p :: t => (c :: p) :: t := by
  rw [pySplit]
  rw [List.length_cons]
  rw [pySplitGo]
  rw [if_neg h]
  rw [pySplitGo_irrel sep rest.length rest (Nat.le_refl _)]

theorem pySplit_ne_nil (sep s : Str) : pySplit sep s ≠ [] := by
  cases s with
  | nil => simp [pySplit_nil]
  | cons c rest =>
    by_cases h : sep ≠ [] ∧ sep.isPrefixOf (c :: rest) = true
    · rw [pySplit_cons_pos sep c rest h.1 h.2]
      simp
    · rw [pySplit_cons_neg sep c rest h]
      cases pySplit sep rest <;> simp

theorem pySplit_of_no_occurrence (sep : Str) (_hsep : sep ≠ []) :
    ∀ s : Str, ¬ sep <:+: s → pySplit sep s = [s] := by
  intro s
  induction s with
  | nil => intro _; exact pySplit_nil sep
  | cons c rest ih =>
    intro hinf
    have hnp : ¬ sep.isPrefixOf (c :: rest) = true := by
      intro hp
      exact hinf (List.IsPrefix.isInfix (isPrefixOf_eq.mp hp))
    rw [pySplit_cons_neg sep c rest (by intro hand; exact hnp hand.2)]
    have hrest : ¬ sep <:+: rest := by
      intro hr
      exact hinf (List.infix_cons_iff.mpr (Or.inr hr))
    rw [ih hrest]

theorem pySplit_append (sep : Str) (hsep : sep ≠ []) :
    ∀ (a b : Str), ¬ sep <:+: (a ++ sep.dropLast) →
      pySplit sep (a ++ sep ++ b) = a :: pySplit sep b := by
  intro a
  induction a with
  | nil =>
    intro b _
    match hs : sep, hsep with
    | d :: sep', _ =>
      have hpre : (d :: sep').isPrefixOf (d :: (sep' ++ b)) = true := by
        rw [isPrefixOf_eq]
        exact ⟨b, by simp⟩
      have : ([] : Str) ++ (d :: sep') ++ b = d :: (sep' ++ b) := by simp
      rw [this]
      rw [pySplit_cons_pos (d :: sep') d (sep' ++ b) (by simp) hpre]
      have hlen : (d :: sep').length - 1 = sep'.length := by simp
      rw [hlen, List.drop_left]
  | cons c a' ih =>
    intro b hna
    have hss : (c :: a') ++ sep ++ b = c :: (a' ++ sep ++ b) := by simp
    rw [hss]
    have hnp : ¬ sep.isPrefixOf (c :: (a' ++ sep ++ b)) = true := by
      intro hp
      apply hna
      have hy : ((c :: a') ++ sep.dropLast) <+: ((c :: a') ++ sep ++ b) := by
        refine ⟨[sep.getLast hsep] ++ b, ?_⟩
        have := List.dropLast_concat_getLast hsep
        calc (c :: a') ++ sep.dropLast ++ ([sep.getLast hsep] ++ b)
            = (c :: a') ++ (sep.dropLast ++ [sep.getLast hsep]) ++ b := by simp
          _ = (c :: a') ++ sep ++ b := by rw [this]
      have hx : sep <+: ((c :: a') ++ sep ++ b) := by
        rw [hss]; exact isPrefixOf_eq.mp hp
      have hlen : sep.length ≤ ((c :: a') ++ sep.dropLast).length := by
        have h1 : 1 ≤ sep.length := by
          cases sep with
          | nil => exact absurd rfl hsep
          | cons _ _ => simp
        simp [List.length_dropLast]
        omega
      have := List.prefix_of_prefix_length_le hx hy hlen
      exact List.IsPrefix.isInfix this
    rw [pySplit_cons_neg sep c (a' ++ sep ++ b) (by intro hand; exact hnp hand.2)]
    have hna' : ¬ sep <:+: (a' ++ sep.dropLast) := by
      intro h
      exact hna (List.infix_cons_iff.mpr (Or.inr h))
    rw [ih b hna']

theorem length_pySplit_aux (sep : Str) :
    ∀ (n : Nat) (s : Str), s.length ≤ n →
      (pySplit sep s).length = occCount sep s + 1 := by
  intro n
  induction n with
  | zero =>
    intro s hs
    have : s = [] := by
      cases s with
      | nil => rfl
      | cons _ _ => simp at hs
    subst this
    simp [pySplit_nil, occCount_nil]
  | succ n ih =>
    intro s hs
    cases s with
    | nil => simp [pySplit_nil, occCount_nil]
    | cons c rest =>
      by_cases h : sep ≠ [] ∧ sep.isPrefixOf (c :: rest) = true
      · rw [pySplit_cons_pos sep c rest h.1 h.2]
        rw [occCount_cons_pos sep c rest h.1 h.2]
        have hle : (List.drop (sep.length - 1) rest).length ≤ n := by
          simp only [List.length_drop]
          simp only [List.length_cons] at hs
          omega
        rw [List.length_cons]
        rw [ih _ hle]
      · rw [pySplit_cons_neg sep c rest h]
        rw [occCount_cons_neg sep c rest h]
        have hle : rest.length ≤ n := by
          simp only [List.length_cons] at hs
          omega
        have := ih rest hle
        cases hp : pySplit sep rest with
        | nil => exact absurd hp (pySplit_ne_nil sep rest)
        | cons p t =>
          rw [hp] at this
          simpa using this

theorem length_pySplit (sep : Str) (s : Str) :
    (pySplit sep s).length = occCount sep s + 1 :=
  length_pySplit_aux sep s.length s (Nat.le_refl _)

theorem containsSub_iff (pat : Str) : ∀ s : Str, containsSub pat s = true ↔ pat <:+: s := by
  intro s
  induction s with
  | nil =>
    rw [containsSub]
    rw [isPrefixOf_eq]
    constructor
    · intro h; exact List.IsPrefix.isInfix h
    · intro h
      rcases h with ⟨u, v, huv⟩
      have : u = [] ∧ pat ++ v = [] := by
        constructor
        · cases u with
          | nil => rfl
          | cons _ _ => simp at huv
        · cases u with
          | nil => simpa using huv
          | cons _ _ => simp at huv
      rcases this with ⟨_, h2⟩
      have : pat = [] := by
        cases pat with
        | nil => rfl
        | cons _ _ => simp at h2
      simp [this]
  | cons c rest ih =>
    rw [containsSub]
    rw [Bool.or_eq_true]
    rw [isPrefixOf_eq, ih]
    rw [List.infix_cons_iff]

theorem not_infix_of_containsSub (pat s : Str) (h : containsSub pat s = false) :
    ¬ pat <:+: s := by
  intro hc
  rw [← containsSub_iff] at hc
  rw [h] at hc
  exact Bool.false_ne_true hc

/-- If every character of `v` differs from the head of `pat`, and `pat` does
not occur in `K`, then `pat` does not occur in `v ++ K`. -/
theorem not_infix_append_left (ch : Char) (p' : Str) (pat : Str) (hpat : pat = ch :: p') :
    ∀ (v K : Str), ch ∉ v → ¬ pat <:+: K → ¬ pat <:+: (v ++ K) := by
  intro v
  induction v with
  | nil => intro K _ hK; simpa using hK
  | cons c v' ih =>
    intro K hv hK hinf
    have hstep : pat <+: (c :: (v' ++ K)) ∨ pat <:+: (v' ++ K) := by
      have := List.infix_cons_iff.mp (by simpa using hinf)
      exact this
    rcases hstep with hp | hi
    · rw [hpat] at hp
      have := (List.cons_prefix_cons.mp hp).1
      apply hv
      rw [← this]
      simp
    · exact ih K (by intro hm; exact hv (by simp [hm])) hK hi

/-- Join a list of pieces with `sep` between consecutive pieces
(the inverse image of Python's `split`). -/
def joinSep (sep : Str) : List Str → Str
  | [] => []
  | [p] => p
  | p :: q :: rest => p ++ sep ++ joinSep sep (q :: rest)

theorem pySplit_joinSep (sep : Str) (hsep : sep ≠ []) :
    ∀ pieces : List Str, pieces ≠ [] →
      (∀ p ∈ pieces, ¬ sep <:+: (p ++ sep.dropLast)) →
      pySplit sep (joinSep sep pieces) = pieces := by
  intro pieces
  induction pieces with
  | nil => intro h; exact absurd rfl h
  | cons p rest ih =>
    intro _ hall
    cases rest with
    | nil =>
      have hp : ¬ sep <:+: p := by
        intro hc
        exact hall p (by simp)
          (List.IsInfix.trans hc (List.IsPrefix.isInfix (List.prefix_append p sep.dropLast)))
      rw [joinSep]
      exact pySplit_of_no_occurrence sep hsep p hp
    | cons q rest' =>
      rw [joinSep]
      rw [pySplit_append sep hsep p (joinSep sep (q :: rest')) (hall p (by simp))]
      rw [ih (by simp) (by intro x hx; exact hall x (by simp [hx]))]

/-! ### Page fetch, field parsers, record assembler and driver -/

/-- Outcome of `requests.get(url, timeout=30)` for one identifier: a raised
`ConnectionError`, a raised `ReadTimeout`, or a response with a status code
and a body. -/
inductive HttpOutcome where
  | connectionError : HttpOutcome
  | readTimeout : HttpOutcome
  | response : Nat → Str → HttpOutcome
deriving DecidableEq

/-- `httplib.OK`. -/
def OK : Nat := 200

/-- The in-band marker `'Not Authorized'`. -/
def notAuthorized : Str := "Not Authorized".data

/-- `scrape_page`: catch `ConnectionError` as `ScrapingError`, reject
non-200 statuses with a `ScrapingError` carrying the status, then scan the
body for the auth marker; `ReadTimeout` is not caught and propagates. -/
def scrape_page (out : HttpOutcome) : Except PyErr Str :=
  match out with
  | .connectionError => .error (PyErr.scrapingError ScrapeMsg.connectionError)
  | .readTimeout => .error PyErr.readTimeout
  | .response status text =>
    if status ≠ OK then .error (PyErr.scrapingError (ScrapeMsg.badStatus status))
    else if containsSub notAuthorized text then .error PyErr.authError
    else .ok text

/-- `'<span class="bold">'`. -/
def boldBefore : Str := "<span class=\"bold\">".data

/-- `'</span>'`. -/
def spanClose : Str := "</span>".data

def nameBefore : Str := "Program Name:&nbsp;<span class=\"bold\">".data

def stateBefore : Str := "&nbsp;State/Providence:&nbsp;<span class=\"bold\">".data

def cityBefore : Str := "City:&nbsp;<span class=\"bold\">".data

def lastUpdatedBefore : Str := "Last Updated: <span class=\"bold\">".data

def ltChar : Str := "<".data

def scrape_name (source : Str) : Str :=
  safe_scrape_item_between source nameBefore spanClose 1

def scrape_state (source : Str) : Str :=
  safe_scrape_item_between source stateBefore spanClose 1

def scrape_city (source : Str) : Str :=
  safe_scrape_item_between source cityBefore spanClose 1

def scrape_last_updated (source : Str) : Str :=
  safe_scrape_item_between source lastUpdatedBefore ltChar 1

/-- `scrape_salary`: bolded values 1,3,5,7 of section 10 (best-effort),
after strict section extraction. -/
def scrape_salary (source : Str) : Except PyErr (List Str) :=
  match scrape_section source 10 with
  | .error e => .error e
  | .ok sec =>
    .ok [safe_scrape_item_between sec boldBefore spanClose 1,
         safe_scrape_item_between sec boldBefore spanClose 3,
         safe_scrape_item_between sec boldBefore spanClose 5,
         safe_scrape_item_between sec boldBefore spanClose 7]

/-- `scrape_pto`: bolded values 2,4,6,8 of section 10. -/
def scrape_pto (source : Str) : Except PyErr (List Str) :=
  match scrape_section source 10 with
  | .error e => .error e
  | .ok sec =>
    .ok [safe_scrape_item_between sec boldBefore spanClose 2,
         safe_scrape_item_between sec boldBefore spanClose 4,
         safe_scrape_item_between sec boldBefore spanClose 6,
         safe_scrape_item_between sec boldBefore spanClose 8]

/-- `scrape_avg_step_score`: bolded values 1,2 of section 19. -/
def scrape_avg_step_score (source : Str) : Except PyErr (List Str) :=
  match scrape_section source 19 with
  | .error e => .error e
  | .ok sec =>
    .ok [safe_scrape_item_between sec boldBefore spanClose 1,
         safe_scrape_item_between sec boldBefore spanClose 2]

/-- `scrape_min_step_score`: bolded values 2,3 of section 27. -/
def scrape_min_step_score (source : Str) : Except PyErr (List Str) :=
  match scrape_section source 27 with
  | .error e => .error e
  | .ok sec =>
    .ok [safe_scrape_item_between sec boldBefore spanClose 2,
         safe_scrape_item_between sec boldBefore spanClose 3]

structure ResidentDemographics where
  total : Str
  male : Str
  female : Str
deriving DecidableEq

/-- `scrape_resident_demographics`: values 1 (total), 3 (female), 4 (male)
of section 17. -/
def scrape_resident_demographics (source : Str) : Except PyErr ResidentDemographics :=
  match scrape_section source 17 with
  | .error e => .error e
  | .ok sec =>
    .ok (ResidentDemographics.mk
      (safe_scrape_item_between sec boldBefore spanClose 1)
      (safe_scrape_item_between sec boldBefore spanClose 4)
      (safe_scrape_item_between sec boldBefore spanClose 3))

structure ResidencyInfo where
  name : Str
  state : Str
  city : Str
  salary : List Str
  pto : List Str
  min_step_scores : List Str
  avg_step_scores : List Str
  resident_demographics : ResidentDemographics
  last_updated : Str
deriving DecidableEq

/-- `get_residency_info`: fetch the page, then build the record; the first
exception raised by the fetch or by a field parser propagates unchanged
(Python evaluates the keyword arguments left to right, and only the four
section-based parsers can raise). -/
def get_residency_info (out : HttpOutcome) : Except PyErr ResidencyInfo :=
  match scrape_page out with
  | .error e => .error e
  | .ok page =>
    match scrape_salary page with
    | .error e => .error e
    | .ok salary =>
      match scrape_pto page with
      | .error e => .error e
      | .ok pto =>
        match scrape_min_step_score page with
        | .error e => .error e
        | .ok minScores =>
          match scrape_avg_step_score page with
          | .error e => .error e
          | .ok avgScores =>
            match scrape_resident_demographics page with
            | .error e => .error e
            | .ok demo =>
              .ok (ResidencyInfo.mk (scrape_name page) (scrape_state page)
                    (scrape_city page) salary pto minScores avgScores demo
                    (scrape_last_updated page))

/-- The console tag printed for one identifier: SUCCESS, SKIP
(`AuthError` or `ReadTimeout`), or FAIL (`ScrapingError`). -/
inductive Outcome where
  | success : Outcome
  | skip : Outcome
  | fail : Outcome
deriving DecidableEq

/-- One iteration of the driver loop: the printed tag and the record
appended (if any) for one identifier's fetch outcome. -/
def classify (out : HttpOutcome) : Outcome × Option ResidencyInfo :=
  match get_residency_info out with
  | .ok r => (Outcome.success, some r)
  | .error PyErr.authError => (Outcome.skip, none)
  | .error PyErr.readTimeout => (Outcome.skip, none)
  | .error (PyErr.scrapingError _) => (Outcome.fail, none)

/-- `LAST_ID = 287`. -/
def LAST_ID : Nat := 287

/-- One loop body of the driver: append the record if the iteration
produced one, otherwise keep the accumulator. -/
def loopBody (acc : List ResidencyInfo) : Option ResidencyInfo → List ResidencyInfo
  | some r => acc ++ [r]
  | none => acc

/-- `scrape`: loop `id_` over `range(1, LAST_ID)`, appending each successful
record, skipping `AuthError`/`ReadTimeout` and swallowing `ScrapingError`.
The transport is abstracted as a function from identifier to outcome. -/
def scrape (fetch : Nat → HttpOutcome) : List ResidencyInfo :=
  (List.range' 1 (LAST_ID - 1)).foldl
    (fun acc i => loopBody acc (classify (fetch i)).2) []

/-- The sequence of console tags printed by one run of `scrape`. -/
def scrapeLog (fetch : Nat → HttpOutcome) : List Outcome :=
  (List.range' 1 (LAST_ID - 1)).map (fun i => (classify (fetch i)).1)

/-! ### Bridge lemmas about the extractor -/

theorem scrape_item_between_error_iff (source bef aft : Str) (inst : Nat) :
    scrape_item_between source bef aft inst
        = .error (PyErr.scrapingError (ScrapeMsg.itemBetween bef aft))
      ↔ occCount bef source < inst := by
  rw [scrape_item_between]
  cases hg : (pySplit bef source).get? inst with
  | none =>
    have hlen : (pySplit bef source).length ≤ inst := List.get?_eq_none.mp hg
    rw [length_pySplit] at hlen
    simp only []
    constructor
    · intro _; omega
    · intro _; trivial
  | some seg =>
    have hlt : inst < (pySplit bef source).length := by
      rcases List.get?_eq_some.mp hg with ⟨h, _⟩
      exact h
    rw [length_pySplit] at hlt
    simp only []
    constructor
    · intro h; exact absurd h (by simp)
    · intro h; omega

theorem scrape_item_between_any_error (source bef aft : Str) (inst : Nat) (e : PyErr)
    (h : scrape_item_between source bef aft inst = .error e) :
    e = PyErr.scrapingError (ScrapeMsg.itemBetween bef aft) := by
  rw [scrape_item_between] at h
  cases hg : (pySplit bef source).get? inst with
  | none => rw [hg] at h; simpa using h.symm
  | some seg => rw [hg] at h; simp at h

theorem scrape_item_between_seg (source bef aft : Str) (inst : Nat) (seg : Str)
    (hg : (pySplit bef source).get? inst = some seg) :
    scrape_item_between source bef aft inst = .ok ((pySplit aft seg).headD []) := by
  rw [scrape_item_between]
  rw [hg]

theorem scrape_item_between_no_after (source bef aft : Str) (inst : Nat) (seg : Str)
    (hg : (pySplit bef source).get? inst = some seg) (ha : ¬ aft <:+: seg) :
    scrape_item_between source bef aft inst = .ok seg := by
  have haft : aft ≠ [] := by
    intro h
    subst h
    exact ha ⟨[], seg, by simp⟩
  rw [scrape_item_between_seg source bef aft inst seg hg]
  rw [pySplit_of_no_occurrence aft haft seg ha]
  rfl

theorem scrape_item_between_found (source bef aft : Str) (inst : Nat)
    (mid r : Str) (haft : aft ≠ [])
    (hg : (pySplit bef source).get? inst = some (mid ++ aft ++ r))
    (hmid : ¬ aft <:+: (mid ++ aft.dropLast)) :
    scrape_item_between source bef aft inst = .ok mid := by
  rw [scrape_item_between_seg source bef aft inst _ hg]
  rw [pySplit_append aft haft mid r hmid]
  rfl

theorem exists_seg_of_le_occCount (source bef : Str) (inst : Nat)
    (h : inst ≤ occCount bef source) :
    ∃ seg, (pySplit bef source).get? inst = some seg := by
  have hlt : inst < (pySplit bef source).length := by
    rw [length_pySplit]; omega
  cases hg : (pySplit bef source).get? inst with
  | none =>
    have := List.get?_eq_none.mp hg
    omega
  | some seg => exact ⟨seg, rfl⟩

theorem safe_eq_of_ok (source bef aft : Str) (inst : Nat) (t : Str)
    (h : scrape_item_between source bef aft inst = .ok t) :
    safe_scrape_item_between source bef aft inst = t := by
  rw [safe_scrape_item_between]
  rw [h]

theorem safe_eq_nil_of_error (source bef aft : Str) (inst : Nat) (e : PyErr)
    (h : scrape_item_between source bef aft inst = .error e) :
    safe_scrape_item_between source bef aft inst = [] := by
  rw [safe_scrape_item_between]
  rw [h]

theorem strict_fails_of_no_occurrence (source bef aft : Str) (inst : Nat)
    (hinst : 1 ≤ inst) (h : ¬ bef <:+: source) :
    scrape_item_between source bef aft inst
      = .error (PyErr.scrapingError (ScrapeMsg.itemBetween bef aft)) := by
  have hbef : bef ≠ [] := by
    intro hb
    subst hb
    exact h ⟨[], source, by simp⟩
  rw [scrape_item_between]
  rw [pySplit_of_no_occurrence bef hbef source h]
  cases inst with
  | zero => omega
  | succ k => rfl

/-! ### Sections built from bolded values -/

/-- A section body of the upstream page template holding the given bolded
values: `<span class="bold">v₁</span><span class="bold">v₂</span>…`. -/
def mkSection (vals : List Str) : Str :=
  (vals.map (fun v => boldBefore ++ v ++ spanClose)).flatten

theorem boldBefore_eq : boldBefore = '<' :: "span class=\"bold\">".data := by decide

theorem spanClose_eq : spanClose = '<' :: "/span>".data := by decide

theorem mkSection_cons (v : Str) (rest : List Str) :
    mkSection (v :: rest) = boldBefore ++ v ++ spanClose ++ mkSection rest := by
  simp [mkSection]

theorem joinSep_cons_map :
    ∀ (rest : List Str) (v : Str),
      joinSep boldBefore ((v ++ spanClose) :: rest.map (fun w => w ++ spanClose))
        = v ++ spanClose ++ mkSection rest := by
  intro rest
  induction rest with
  | nil => intro v; simp [mkSection, joinSep]
  | cons w rest' ih =>
    intro v
    rw [List.map_cons]
    rw [joinSep]
    rw [ih w]
    rw [mkSection_cons]
    simp

theorem mkSection_eq_joinSep (vals : List Str) :
    mkSection vals = joinSep boldBefore ([] :: vals.map (fun v => v ++ spanClose)) := by
  cases vals with
  | nil => simp [mkSection, joinSep]
  | cons v rest =>
    rw [List.map_cons]
    rw [joinSep]
    rw [joinSep_cons_map rest v]
    rw [mkSection_cons]
    simp

theorem pySplit_mkSection (vals : List Str) (hv : ∀ w ∈ vals, ('<' : Char) ∉ w) :
    pySplit boldBefore (mkSection vals)
      = [] :: vals.map (fun v => v ++ spanClose) := by
  rw [mkSection_eq_joinSep]
  apply pySplit_joinSep boldBefore (by decide)
  · simp
  · intro p hp
    rcases List.mem_cons.mp hp with h0 | hmap
    · subst h0
      simp only [List.nil_append]
      exact not_infix_of_containsSub _ _ (by decide)
    · rcases List.mem_map.mp hmap with ⟨v, hvmem, hveq⟩
      subst hveq
      rw [List.append_assoc]
      exact not_infix_append_left '<' _ boldBefore boldBefore_eq v _
        (hv v hvmem) (not_infix_of_containsSub _ _ (by decide))

/-- Best-effort extraction of the `k`-th (0-based) bolded value of a section
built from values containing no `<`, at occurrence index `k + 1`. -/
theorem safe_mkSection (vals : List Str) (hv : ∀ w ∈ vals, ('<' : Char) ∉ w)
    (k : Nat) (v : Str) (hk : vals.get? k = some v) :
    safe_scrape_item_between (mkSection vals) boldBefore spanClose (k + 1) = v := by
  have hgmap : (vals.map (fun w => w ++ spanClose)).get? k = some (v ++ spanClose) := by
    rw [List.get?_map]
    rw [hk]
    rfl
  have hg : (pySplit boldBefore (mkSection vals)).get? (k + 1) = some (v ++ spanClose ++ []) := by
    rw [pySplit_mkSection vals hv]
    simpa using hgmap
  have hvmem : v ∈ vals := List.get?_mem hk
  have hok : scrape_item_between (mkSection vals) boldBefore spanClose (k + 1) = .ok v := by
    apply scrape_item_between_found (mkSection vals) boldBefore spanClose (k + 1) v []
      (by decide) hg
    exact not_infix_append_left '<' _ spanClose spanClose_eq v _
      (hv v hvmem) (not_infix_of_containsSub _ _ (by decide))
  exact safe_eq_of_ok _ _ _ _ _ hok

theorem scrape_page_auth (text : Str) (h : notAuthorized <:+: text) :
    scrape_page (HttpOutcome.response OK text) = .error PyErr.authError := by
  rw [scrape_page]
  rw [if_neg (by simp)]
  rw [if_pos ((containsSub_iff notAuthorized text).mpr h)]

/-! ### Propagation through the record assembler and the driver -/

theorem gri_of_page_error (out : HttpOutcome) (e : PyErr)
    (h : scrape_page out = .error e) : get_residency_info out = .error e := by
  rw [get_residency_info]
  rw [h]

theorem gri_of_salary_error (out : HttpOutcome) (page : Str) (e : PyErr)
    (hp : scrape_page out = .ok page) (hs : scrape_salary page = .error e) :
    get_residency_info out = .error e := by
  simp only [get_residency_info, hp, hs]

theorem gri_ok_iff (out : HttpOutcome) (page : Str) (hp : scrape_page out = .ok page) :
    (∃ r, get_residency_info out = .ok r)
      ↔ (∃ x, scrape_salary page = .ok x) ∧ (∃ x, scrape_pto page = .ok x)
        ∧ (∃ x, scrape_min_step_score page = .ok x)
        ∧ (∃ x, scrape_avg_step_score page = .ok x)
        ∧ (∃ x, scrape_resident_demographics page = .ok x) := by
  simp only [get_residency_info, hp]
  cases h1 : scrape_salary page with
  | error e => simp [h1]
  | ok x1 =>
    cases h2 : scrape_pto page with
    | error e => simp [h1, h2]
    | ok x2 =>
      cases h3 : scrape_min_step_score page with
      | error e => simp [h1, h2, h3]
      | ok x3 =>
        cases h4 : scrape_avg_step_score page with
        | error e => simp [h1, h2, h3, h4]
        | ok x4 =>
          cases h5 : scrape_resident_demographics page with
          | error e => simp [h1, h2, h3, h4, h5]
          | ok x5 => simp [h1, h2, h3, h4, h5]

theorem gri_error_sources (out : HttpOutcome) (e : PyErr)
    (h : get_residency_info out = .error e) :
    scrape_page out = .error e
      ∨ ∃ page, scrape_page out = .ok page
          ∧ (scrape_salary page = .error e ∨ scrape_pto page = .error e
             ∨ scrape_min_step_score page = .error e
             ∨ scrape_avg_step_score page = .error e
             ∨ scrape_resident_demographics page = .error e) := by
  rw [get_residency_info] at h
  cases hp : scrape_page out with
  | error e' => simp only [hp] at h; left; simpa using h
  | ok page =>
    simp only [hp] at h
    right
    refine ⟨page, rfl, ?_⟩
    cases h1 : scrape_salary page with
    | error _ => simp only [h1] at h; left; simpa using h
    | ok x1 =>
      simp only [h1] at h
      cases h2 : scrape_pto page with
      | error _ => simp only [h2] at h; right; left; simpa using h
      | ok x2 =>
        simp only [h2] at h
        cases h3 : scrape_min_step_score page with
        | error _ => simp only [h3] at h; right; right; left; simpa using h
        | ok x3 =>
          simp only [h3] at h
          cases h4 : scrape_avg_step_score page with
          | error _ => simp only [h4] at h; right; right; right; left; simpa using h
          | ok x4 =>
            simp only [h4] at h
            cases h5 : scrape_resident_demographics page with
            | error _ => simp only [h5] at h; right; right; right; right; simpa using h
            | ok x5 => simp only [h5] at h; simp at h

theorem gri_ok_fields (out : HttpOutcome) (page : Str) (r : ResidencyInfo)
    (hp : scrape_page out = .ok page) (h : get_residency_info out = .ok r) :
    r.name = scrape_name page ∧ r.state = scrape_state page
      ∧ r.city = scrape_city page ∧ r.last_updated = scrape_last_updated page := by
  rw [get_residency_info] at h
  simp only [hp] at h
  cases h1 : scrape_salary page with
  | error _ => simp only [h1] at h; simp at h
  | ok x1 =>
    simp only [h1] at h
    cases h2 : scrape_pto page with
    | error _ => simp only [h2] at h; simp at h
    | ok x2 =>
      simp only [h2] at h
      cases h3 : scrape_min_step_score page with
      | error _ => simp only [h3] at h; simp at h
      | ok x3 =>
        simp only [h3] at h
        cases h4 : scrape_avg_step_score page with
        | error _ => simp only [h4] at h; simp at h
        | ok x4 =>
          simp only [h4] at h
          cases h5 : scrape_resident_demographics page with
          | error _ => simp only [h5] at h; simp at h
          | ok x5 =>
            simp only [h5] at h
            have hr := h.symm
            cases hr
            exact ⟨rfl, rfl, rfl, rfl⟩

theorem classify_snd (out : HttpOutcome) :
    (classify out).2 = (get_residency_info out).toOption := by
  rw [classify]
  cases h : get_residency_info out with
  | ok r => rfl
  | error e => cases e <;> rfl

theorem foldl_loopBody (g : Nat → Option ResidencyInfo) :
    ∀ (l : List Nat) (acc : List ResidencyInfo),
      l.foldl (fun acc i => loopBody acc (g i)) acc = acc ++ l.filterMap g := by
  intro l
  induction l with
  | nil => intro acc; simp
  | cons i l' ih =>
    intro acc
    simp only [List.foldl_cons, List.filterMap_cons]
    cases hg : g i with
    | none =>
      rw [show loopBody acc none = acc from rfl]
      rw [ih]
    | some r =>
      rw [show loopBody acc (some r) = acc ++ [r] from rfl]
      rw [ih]
      simp

theorem length_filterMap_eq_filter {α β : Type} (g : α → Option β) :
    ∀ l : List α, (l.filterMap g).length = (l.filter (fun a => (g a).isSome)).length := by
  intro l
  induction l with
  | nil => rfl
  | cons a l' ih =>
    rw [List.filterMap_cons, List.filter_cons]
    cases hg : g a with
    | none => simp [hg, ih]
    | some b => simp [hg, ih]

theorem sectionMarker_ne_nil (n : Nat) : sectionMarker n ≠ [] := by
  intro h
  have hlen := congrArg List.length h
  rw [sectionMarker] at hlen
  rw [List.length_append] at hlen
  have h7 : ".&nbsp;".data.length = 7 := by decide
  rw [h7] at hlen
  simp at hlen

/-! ### The claims -/

/-- C1, corrected.  The claim said strict extraction fails with the
extraction error carrying the two delimiters iff the occurrence index is out
of range **or** `after` is absent from the selected segment.  The code
(`source.split(before)[instance].split(after)[0]`) only fails on the index
lookup: `split(after)[0]` cannot fail, so `after` being absent yields the
whole segment instead of an error.  Amended: (i) for non-empty delimiters the
call fails, with the error carrying both delimiter strings, iff fewer
occurrences of `before` exist than the requested index; (ii) when the index
is in range and the selected segment has the form `m ++ after ++ r` with no
earlier occurrence of `after`, the result is exactly the substring `m`
strictly between the delimiters; (iii) when `after` is absent from the
selected segment the whole segment is returned. -/
theorem C1_strict_extraction (bef aft : Str) (hb : bef ≠ []) (ha : aft ≠ []) :
    (∀ (source : Str) (inst : Nat),
        scrape_item_between source bef aft inst
            = .error (PyErr.scrapingError (ScrapeMsg.itemBetween bef aft))
          ↔ occCount bef source < inst)
  ∧ (∀ (pieces : List Str) (inst : Nat) (m r : Str),
        (∀ p ∈ pieces, ¬ bef <:+: (p ++ bef.dropLast)) →
        pieces ≠ [] →
        pieces.get? inst = some (m ++ aft ++ r) →
        ¬ aft <:+: (m ++ aft.dropLast) →
        scrape_item_between (joinSep bef pieces) bef aft inst = .ok m)
  ∧ (∀ (source : Str) (inst : Nat) (seg : Str),
        (pySplit bef source).get? inst = some seg →
        ¬ aft <:+: seg →
        scrape_item_between source bef aft inst = .ok seg) := by
  refine ⟨?_, ?_, ?_⟩
  · intro source inst
    exact scrape_item_between_error_iff source bef aft inst
  · intro pieces inst m r hall hne hget hmid
    have hsplit : pySplit bef (joinSep bef pieces) = pieces :=
      pySplit_joinSep bef hb pieces hne hall
    exact scrape_item_between_found _ bef aft inst m r ha
      (by rw [hsplit]; exact hget) hmid
  · intro source inst seg hget hseg
    exact scrape_item_between_no_after source bef aft inst seg hget hseg

theorem C1_strict_extraction_witness :
    ("a".data : Str) ≠ [] ∧ ("b".data : Str) ≠ []
    ∧ scrape_item_between "x".data "a".data "b".data 1
        = .error (PyErr.scrapingError (ScrapeMsg.itemBetween "a".data "b".data)) :=
  ⟨by decide, by decide,
    ((C1_strict_extraction "a".data "b".data (by decide) (by decide)).1
      "x".data 1).mpr (by decide)⟩

/-- C1 counterexample: in `"XaY"` the delimiter `"a"` occurs once (so index 1
is in range) and `"b"` is absent from the selected segment `"Y"`; the claim
demands failure with the extraction error, but the code returns `"Y"`. -/
theorem C1_counterexample :
    1 ≤ occCount "a".data "XaY".data
    ∧ ¬ "b".data <:+: "Y".data
    ∧ scrape_item_between "XaY".data "a".data "b".data 1 = .ok "Y".data :=
  ⟨by decide, by decide, by decide⟩

/-- C10, confirmed.  If the source has at least `inst` occurrences of
`before` (a selected segment exists) and `after` does not occur in the
selected segment, strict extraction does not fail and returns the entire
selected segment — which, by the split semantics, extends from the
`inst`-th split point to the next occurrence of `before` or to the end of
the source (conjunct on `joinSep`-shaped sources).  The only failure cause
is the occurrence index being out of range (final iff). -/
theorem C10_after_absent (bef aft source : Str) (inst : Nat) (hb : bef ≠ []) :
    (inst ≤ occCount bef source →
        ∃ seg, (pySplit bef source).get? inst = some seg)
  ∧ (∀ seg, (pySplit bef source).get? inst = some seg → ¬ aft <:+: seg →
        scrape_item_between source bef aft inst = .ok seg)
  ∧ (∀ (pieces : List Str) (seg : Str), pieces ≠ [] →
        (∀ p ∈ pieces, ¬ bef <:+: (p ++ bef.dropLast)) →
        pieces.get? inst = some seg → ¬ aft <:+: seg →
        scrape_item_between (joinSep bef pieces) bef aft inst = .ok seg)
  ∧ (scrape_item_between source bef aft inst
        = .error (PyErr.scrapingError (ScrapeMsg.itemBetween bef aft))
      ↔ occCount bef source < inst) := by
  refine ⟨?_, ?_, ?_, ?_⟩
  · intro h
    exact exists_seg_of_le_occCount source bef inst h
  · intro seg hget hseg
    exact scrape_item_between_no_after source bef aft inst seg hget hseg
  · intro pieces seg hne hall hget hseg
    have hsplit : pySplit bef (joinSep bef pieces) = pieces :=
      pySplit_joinSep bef hb pieces hne hall
    exact scrape_item_between_no_after _ bef aft inst seg
      (by rw [hsplit]; exact hget) hseg
  · exact scrape_item_between_error_iff source bef aft inst

theorem C10_after_absent_witness :
    ("a".data : Str) ≠ []
    ∧ (pySplit "a".data "qaz".data).get? 1 = some "z".data
    ∧ ¬ "b".data <:+: "z".data
    ∧ scrape_item_between "qaz".data "a".data "b".data 1 = .ok "z".data :=
  ⟨by decide, by decide, by decide,
    (C10_after_absent "a".data "b".data "qaz".data 1 (by decide)).2.1
      "z".data (by decide) (by decide)⟩

/-- C8, corrected.  The best-effort wrapper never fails and returns the
strict result on success, and `""` when strict extraction fails; but "returns
the empty string exactly when strict extraction fails" is an iff that is
false, because strict extraction can *succeed* with the empty string (empty
content between adjacent delimiters), in which case the wrapper also returns
`""` without any failure.  Amended: the wrapper returns `""` whenever strict
extraction fails, and otherwise returns exactly the strict result. -/
theorem C8_best_effort (source bef aft : Str) (inst : Nat) :
    (∀ e, scrape_item_between source bef aft inst = .error e →
        safe_scrape_item_between source bef aft inst = [])
  ∧ (∀ t, scrape_item_between source bef aft inst = .ok t →
        safe_scrape_item_between source bef aft inst = t) :=
  ⟨fun e h => safe_eq_nil_of_error source bef aft inst e h,
   fun t h => safe_eq_of_ok source bef aft inst t h⟩

theorem C8_best_effort_witness :
    scrape_item_between "x".data "a".data "b".data 1
        = .error (PyErr.scrapingError (ScrapeMsg.itemBetween "a".data "b".data))
    ∧ safe_scrape_item_between "x".data "a".data "b".data 1 = [] :=
  ⟨by decide,
    (C8_best_effort "x".data "a".data "b".data 1).1
      (PyErr.scrapingError (ScrapeMsg.itemBetween "a".data "b".data)) (by decide)⟩

/-- C8 counterexample: on source `"ab"` with delimiters `"a"`,`"b"` strict
extraction *succeeds* with the empty string, and the best-effort wrapper also
returns the empty string — so the wrapper returning `""` does not imply that
strict extraction failed, refuting the "exactly when" direction. -/
theorem C8_counterexample :
    scrape_item_between "ab".data "a".data "b".data 1 = .ok []
    ∧ safe_scrape_item_between "ab".data "a".data "b".data 1 = [] :=
  ⟨by decide, by decide⟩

/-- C2, corrected.  The claim said a body containing `"Not Authorized"`
yields `AuthError` *regardless of the HTTP status code*; but the code checks
the status first, so a non-200 response raises `ScrapingError` even when the
body contains the marker.  Amended: for every response with the success
status (200) whose body contains the marker anywhere, `scrape_page` raises
`AuthError`. -/
theorem C2_auth_marker (text : Str) (h : notAuthorized <:+: text) :
    scrape_page (HttpOutcome.response OK text) = .error PyErr.authError :=
  scrape_page_auth text h

theorem C2_auth_marker_witness :
    scrape_page (HttpOutcome.response OK ("xx".data ++ notAuthorized ++ "yy".data))
      = .error PyErr.authError :=
  C2_auth_marker ("xx".data ++ notAuthorized ++ "yy".data) (by decide)

/-- C2 counterexample: a status-404 response whose whole body is
`"Not Authorized"` raises `ScrapingError` carrying the status, not
`AuthError` — the claimed status-independence is false. -/
theorem C2_counterexample :
    containsSub notAuthorized notAuthorized = true
    ∧ scrape_page (HttpOutcome.response 404 notAuthorized)
        = .error (PyErr.scrapingError (ScrapeMsg.badStatus 404))
    ∧ scrape_page (HttpOutcome.response 404 notAuthorized) ≠ .error PyErr.authError :=
  ⟨by decide, by decide, by decide⟩

/-- C9, corrected.  Connection failure gives `ScrapingError` (carrying the
`ConnectionError` message) and a non-200 status gives `ScrapingError`
carrying the status; but "otherwise returns the raw body" is false, because
a 200 response whose body contains `"Not Authorized"` raises `AuthError`
instead.  Amended: a 200 response returns the raw body provided the body
does not contain the auth marker. -/
theorem C9_page_fetch (status : Nat) (text : Str) :
    scrape_page HttpOutcome.connectionError
        = .error (PyErr.scrapingError ScrapeMsg.connectionError)
  ∧ (status ≠ OK →
      scrape_page (HttpOutcome.response status text)
        = .error (PyErr.scrapingError (ScrapeMsg.badStatus status)))
  ∧ (¬ notAuthorized <:+: text →
      scrape_page (HttpOutcome.response OK text) = .ok text) := by
  refine ⟨rfl, ?_, ?_⟩
  · intro h
    rw [scrape_page]
    rw [if_pos h]
  · intro h
    rw [scrape_page]
    rw [if_neg (by simp)]
    rw [if_neg (by intro hc; exact h ((containsSub_iff notAuthorized text).mp hc))]

theorem C9_page_fetch_witness :
    (404 ≠ OK)
    ∧ scrape_page (HttpOutcome.response 404 "hello".data)
        = .error (PyErr.scrapingError (ScrapeMsg.badStatus 404))
    ∧ ¬ notAuthorized <:+: "hello".data
    ∧ scrape_page (HttpOutcome.response OK "hello".data) = .ok "hello".data :=
  ⟨by decide, (C9_page_fetch 404 "hello".data).2.1 (by decide), by decide,
    (C9_page_fetch 404 "hello".data).2.2 (by decide)⟩

/-- C9 counterexample: a 200 response whose body is exactly
`"Not Authorized"` is neither a transport failure nor a bad status, yet
`scrape_page` does not return the raw body — it raises `AuthError`. -/
theorem C9_counterexample :
    scrape_page (HttpOutcome.response OK notAuthorized) = .error PyErr.authError
    ∧ scrape_page (HttpOutcome.response OK notAuthorized) ≠ .ok notAuthorized :=
  ⟨by decide, by decide⟩

/-- C3, corrected.  If marker `N` is missing, section extraction fails with
the extraction error carrying both markers (first conjunct); if both markers
are present in order (and do not occur spuriously), the text strictly
between them is returned (second conjunct).  But the claim's "missing the
marker for section N+1 fails" is false: `split(after)[0]` cannot fail, so
when marker `N` is present and marker `N+1` is absent the remainder of the
selected segment is returned instead (third conjunct).  Amended: failure
happens exactly when marker `N` is missing. -/
theorem C3_section_locator (source : Str) (n : Nat) :
    (¬ sectionMarker n <:+: source →
        scrape_section source n
          = .error (PyErr.scrapingError
              (ScrapeMsg.itemBetween (sectionMarker n) (sectionMarker (n + 1)))))
  ∧ (∀ a mid c : Str,
        source = a ++ sectionMarker n ++ (mid ++ sectionMarker (n + 1) ++ c) →
        ¬ sectionMarker n <:+: (a ++ (sectionMarker n).dropLast) →
        ¬ sectionMarker n <:+: (mid ++ sectionMarker (n + 1) ++ c) →
        ¬ sectionMarker (n + 1) <:+: (mid ++ (sectionMarker (n + 1)).dropLast) →
        scrape_section source n = .ok mid)
  ∧ (∀ a mid : Str,
        source = a ++ sectionMarker n ++ mid →
        ¬ sectionMarker n <:+: (a ++ (sectionMarker n).dropLast) →
        ¬ sectionMarker n <:+: mid →
        ¬ sectionMarker (n + 1) <:+: mid →
        scrape_section source n = .ok mid) := by
  refine ⟨?_, ?_, ?_⟩
  · intro h
    rw [scrape_section]
    exact strict_fails_of_no_occurrence source _ _ 1 (Nat.le_refl 1) h
  · intro a mid c hsrc h1 h2 h3
    subst hsrc
    rw [scrape_section]
    have hs1 := pySplit_append (sectionMarker n) (sectionMarker_ne_nil n) a
      (mid ++ sectionMarker (n + 1) ++ c) h1
    have hs2 := pySplit_of_no_occurrence (sectionMarker n) (sectionMarker_ne_nil n)
      (mid ++ sectionMarker (n + 1) ++ c) h2
    have hget : (pySplit (sectionMarker n)
        (a ++ sectionMarker n ++ (mid ++ sectionMarker (n + 1) ++ c))).get? 1
          = some (mid ++ sectionMarker (n + 1) ++ c) := by
      rw [hs1, hs2]
      rfl
    exact scrape_item_between_found _ _ _ 1 mid c (sectionMarker_ne_nil (n + 1)) hget h3
  · intro a mid hsrc h1 h2 h3
    subst hsrc
    rw [scrape_section]
    have hs1 := pySplit_append (sectionMarker n) (sectionMarker_ne_nil n) a mid h1
    have hs2 := pySplit_of_no_occurrence (sectionMarker n) (sectionMarker_ne_nil n) mid h2
    have hget : (pySplit (sectionMarker n) (a ++ sectionMarker n ++ mid)).get? 1
        = some mid := by
      rw [hs1, hs2]
      rfl
    exact scrape_item_between_no_after _ _ _ 1 mid hget h3

theorem C3_section_locator_witness :
    ¬ sectionMarker 3 <:+: "z".data
    ∧ scrape_section "z".data 3
        = .error (PyErr.scrapingError
            (ScrapeMsg.itemBetween (sectionMarker 3) (sectionMarker 4))) :=
  ⟨by decide, (C3_section_locator "z".data 3).1 (by decide)⟩

/-- C3 counterexample: the source `"10.&nbsp;hello"` contains marker 10 but
not marker 11; the claim demands a hard failure, but section extraction
returns `"hello"`. -/
theorem C3_counterexample :
    containsSub (sectionMarker 10) "10.&nbsp;hello".data = true
    ∧ containsSub (sectionMarker 11) "10.&nbsp;hello".data = false
    ∧ scrape_section "10.&nbsp;hello".data 10 = .ok "hello".data :=
  ⟨by decide, by decide, by decide⟩

/-- C4, confirmed.  For a page whose compensation section (section 10)
consists of 8 bolded values (none containing `<`), salary extraction
returns exactly the values at occurrence indices 1,3,5,7 and PTO extraction
exactly those at 2,4,6,8, with no cross-contamination.  The witness
instantiates the spec's concrete 8-value example. -/
theorem C4_salary_pto (page v1 v2 v3 v4 v5 v6 v7 v8 : Str)
    (h1 : ('<' : Char) ∉ v1) (h2 : ('<' : Char) ∉ v2) (h3 : ('<' : Char) ∉ v3)
    (h4 : ('<' : Char) ∉ v4) (h5 : ('<' : Char) ∉ v5) (h6 : ('<' : Char) ∉ v6)
    (h7 : ('<' : Char) ∉ v7) (h8 : ('<' : Char) ∉ v8)
    (hsec : scrape_section page 10
        = .ok (mkSection [v1, v2, v3, v4, v5, v6, v7, v8])) :
    scrape_salary page = .ok [v1, v3, v5, v7]
    ∧ scrape_pto page = .ok [v2, v4, v6, v8] := by
  have hv : ∀ w ∈ ([v1, v2, v3, v4, v5, v6, v7, v8] : List Str), ('<' : Char) ∉ w := by
    intro w hw
    simp only [List.mem_cons, List.not_mem_nil, or_false] at hw
    rcases hw with rfl | rfl | rfl | rfl | rfl | rfl | rfl | rfl <;> assumption
  have e1 : safe_scrape_item_between (mkSection [v1, v2, v3, v4, v5, v6, v7, v8])
      boldBefore spanClose 1 = v1 := safe_mkSection _ hv 0 v1 rfl
  have e2 : safe_scrape_item_between (mkSection [v1, v2, v3, v4, v5, v6, v7, v8])
      boldBefore spanClose 2 = v2 := safe_mkSection _ hv 1 v2 rfl
  have e3 : safe_scrape_item_between (mkSection [v1, v2, v3, v4, v5, v6, v7, v8])
      boldBefore spanClose 3 = v3 := safe_mkSection _ hv 2 v3 rfl
  have e4 : safe_scrape_item_between (mkSection [v1, v2, v3, v4, v5, v6, v7, v8])
      boldBefore spanClose 4 = v4 := safe_mkSection _ hv 3 v4 rfl
  have e5 : safe_scrape_item_between (mkSection [v1, v2, v3, v4, v5, v6, v7, v8])
      boldBefore spanClose 5 = v5 := safe_mkSection _ hv 4 v5 rfl
  have e6 : safe_scrape_item_between (mkSection [v1, v2, v3, v4, v5, v6, v7, v8])
      boldBefore spanClose 6 = v6 := safe_mkSection _ hv 5 v6 rfl
  have e7 : safe_scrape_item_between (mkSection [v1, v2, v3, v4, v5, v6, v7, v8])
      boldBefore spanClose 7 = v7 := safe_mkSection _ hv 6 v7 rfl
  have e8 : safe_scrape_item_between (mkSection [v1, v2, v3, v4, v5, v6, v7, v8])
      boldBefore spanClose 8 = v8 := safe_mkSection _ hv 7 v8 rfl
  constructor
  · simp only [scrape_salary, hsec, e1, e3, e5, e7]
  · simp only [scrape_pto, hsec, e2, e4, e6, e8]

/-- The spec's concrete compensation-section example values. -/
def compVals : List Str :=
  ["50000".data, "10".data, "52000".data, "12".data,
   "54000".data, "14".data, "56000".data, "16".data]

/-- A minimal page holding the example compensation section. -/
def compPage : Str := sectionMarker 10 ++ mkSection compVals ++ sectionMarker 11

set_option maxRecDepth 20000

theorem C4_salary_pto_witness :
    scrape_salary compPage
        = .ok ["50000".data, "52000".data, "54000".data, "56000".data]
    ∧ scrape_pto compPage = .ok ["10".data, "12".data, "14".data, "16".data] :=
  C4_salary_pto compPage "50000".data "10".data "52000".data "12".data
    "54000".data "14".data "56000".data "16".data
    (by decide) (by decide) (by decide) (by decide)
    (by decide) (by decide) (by decide) (by decide)
    (by decide)

/-- C5, confirmed.  Minimum test-score extraction uses occurrence indices
2 and 3 of its section (27), skipping index 1, and demographics extraction
uses total at index 1, female at index 3 and male at index 4 of its section
(17), skipping index 2. -/
theorem C5_scores_demographics (page w1 w2 w3 d1 d2 d3 d4 : Str)
    (hw1 : ('<' : Char) ∉ w1) (hw2 : ('<' : Char) ∉ w2) (hw3 : ('<' : Char) ∉ w3)
    (hd1 : ('<' : Char) ∉ d1) (hd2 : ('<' : Char) ∉ d2) (hd3 : ('<' : Char) ∉ d3)
    (hd4 : ('<' : Char) ∉ d4)
    (hsec27 : scrape_section page 27 = .ok (mkSection [w1, w2, w3]))
    (hsec17 : scrape_section page 17 = .ok (mkSection [d1, d2, d3, d4])) :
    scrape_min_step_score page = .ok [w2, w3]
    ∧ scrape_resident_demographics page
        = .ok (ResidentDemographics.mk d1 d4 d3) := by
  have hw : ∀ w ∈ ([w1, w2, w3] : List Str), ('<' : Char) ∉ w := by
    intro w hw
    simp only [List.mem_cons, List.not_mem_nil, or_false] at hw
    rcases hw with rfl | rfl | rfl <;> assumption
  have hd : ∀ w ∈ ([d1, d2, d3, d4] : List Str), ('<' : Char) ∉ w := by
    intro w hw
    simp only [List.mem_cons, List.not_mem_nil, or_false] at hw
    rcases hw with rfl | rfl | rfl | rfl <;> assumption
  have f2 : safe_scrape_item_between (mkSection [w1, w2, w3])
      boldBefore spanClose 2 = w2 := safe_mkSection _ hw 1 w2 rfl
  have f3 : safe_scrape_item_between (mkSection [w1, w2, w3])
      boldBefore spanClose 3 = w3 := safe_mkSection _ hw 2 w3 rfl
  have g1 : safe_scrape_item_between (mkSection [d1, d2, d3, d4])
      boldBefore spanClose 1 = d1 := safe_mkSection _ hd 0 d1 rfl
  have g3 : safe_scrape_item_between (mkSection [d1, d2, d3, d4])
      boldBefore spanClose 3 = d3 := safe_mkSection _ hd 2 d3 rfl
  have g4 : safe_scrape_item_between (mkSection [d1, d2, d3, d4])
      boldBefore spanClose 4 = d4 := safe_mkSection _ hd 3 d4 rfl
  constructor
  · simp only [scrape_min_step_score, hsec27, f2, f3]
  · simp only [scrape_resident_demographics, hsec17, g1, g3, g4]

/-- Example values for the minimum-scores section: index 1 is the non-score
label that the parser skips. -/
def minScoreVals : List Str := ["Scores".data, "200".data, "210".data]

/-- Example values for the demographics section: index 2 is the
non-demographic line that the parser skips. -/
def demoVals : List Str := ["24".data, "skip".data, "12".data, "11".data]

/-- A minimal page holding the example score and demographics sections. -/
def scorePage : Str :=
  sectionMarker 27 ++ mkSection minScoreVals ++ sectionMarker 28
    ++ sectionMarker 17 ++ mkSection demoVals ++ sectionMarker 18

theorem C5_scores_demographics_witness :
    scrape_min_step_score scorePage = .ok ["200".data, "210".data]
    ∧ scrape_resident_demographics scorePage
        = .ok (ResidentDemographics.mk "24".data "11".data "12".data) :=
  C5_scores_demographics scorePage "Scores".data "200".data "210".data
    "24".data "skip".data "12".data "11".data
    (by decide) (by decide) (by decide) (by decide) (by decide) (by decide)
    (by decide) (by decide) (by decide)

/-- C6, confirmed.  The record assembler propagates the fetch's `AuthError`,
`ScrapingError` and `ReadTimeout` unchanged (first conjunct), propagates
strict-section extraction errors unchanged (second conjunct), and every
failure it reports is exactly one of those (third conjunct); a record is
produced iff every section-based parser succeeds — all-or-nothing with
respect to section presence (fourth conjunct); the best-effort fields are
exactly the best-effort extractions (fifth conjunct), and a missing name
label degrades to the empty string without failing the record (sixth
conjunct). -/
theorem C6_record_assembler (out : HttpOutcome) :
    (∀ e, scrape_page out = .error e → get_residency_info out = .error e)
  ∧ (∀ page e, scrape_page out = .ok page → scrape_salary page = .error e →
      get_residency_info out = .error e)
  ∧ (∀ e, get_residency_info out = .error e →
      scrape_page out = .error e
      ∨ ∃ page, scrape_page out = .ok page
          ∧ (scrape_salary page = .error e ∨ scrape_pto page = .error e
             ∨ scrape_min_step_score page = .error e
             ∨ scrape_avg_step_score page = .error e
             ∨ scrape_resident_demographics page = .error e))
  ∧ (∀ page, scrape_page out = .ok page →
      ((∃ r, get_residency_info out = .ok r)
        ↔ (∃ x, scrape_salary page = .ok x) ∧ (∃ x, scrape_pto page = .ok x)
          ∧ (∃ x, scrape_min_step_score page = .ok x)
          ∧ (∃ x, scrape_avg_step_score page = .ok x)
          ∧ (∃ x, scrape_resident_demographics page = .ok x)))
  ∧ (∀ page r, scrape_page out = .ok page → get_residency_info out = .ok r →
      r.name = scrape_name page ∧ r.state = scrape_state page
        ∧ r.city = scrape_city page ∧ r.last_updated = scrape_last_updated page)
  ∧ (∀ page r, scrape_page out = .ok page → ¬ nameBefore <:+: page →
      get_residency_info out = .ok r → r.name = []) := by
  refine ⟨?_, ?_, ?_, ?_, ?_, ?_⟩
  · intro e h
    exact gri_of_page_error out e h
  · intro page e hp hs
    exact gri_of_salary_error out page e hp hs
  · intro e h
    exact gri_error_sources out e h
  · intro page hp
    exact gri_ok_iff out page hp
  · intro page r hp h
    exact gri_ok_fields out page r hp h
  · intro page r hp hn h
    have hfields := gri_ok_fields out page r hp h
    rw [hfields.1]
    rw [scrape_name]
    exact safe_eq_nil_of_error page nameBefore spanClose 1 _
      (strict_fails_of_no_occurrence page nameBefore spanClose 1 (Nat.le_refl 1) hn)

theorem C6_record_assembler_witness :
    get_residency_info HttpOutcome.connectionError
      = .error (PyErr.scrapingError ScrapeMsg.connectionError) :=
  (C6_record_assembler HttpOutcome.connectionError).1
    (PyErr.scrapingError ScrapeMsg.connectionError) rfl

/-- C7, confirmed.  The driver scans every identifier of `range(1, 287)`
exactly once (the log has one entry per identifier, so no retry happens and
the whole range completes), the returned sequence is the in-order
`filterMap` of the successful records over the ascending identifier range —
hence its length is exactly the number of identifiers whose page assembles
into a record, and the contributing identifiers are strictly ascending —
and `AuthError` (a body containing "Not Authorized" under status 200) and
`ReadTimeout` produce the identical skip outcome, while no failed identifier
contributes a record. -/
theorem C7_driver (fetch : Nat → HttpOutcome) :
    (scrapeLog fetch).length = LAST_ID - 1
  ∧ scrape fetch
      = (List.range' 1 (LAST_ID - 1)).filterMap
          (fun i => (get_residency_info (fetch i)).toOption)
  ∧ (scrape fetch).length
      = ((List.range' 1 (LAST_ID - 1)).filter
          (fun i => ((get_residency_info (fetch i)).toOption).isSome)).length
  ∧ List.Pairwise (· < ·)
      ((List.range' 1 (LAST_ID - 1)).filter
        (fun i => ((get_residency_info (fetch i)).toOption).isSome))
  ∧ (∀ text, notAuthorized <:+: text →
      classify (HttpOutcome.response OK text) = classify HttpOutcome.readTimeout)
  ∧ classify HttpOutcome.readTimeout = (Outcome.skip, none)
  ∧ (∀ out e, get_residency_info out = .error e → (classify out).2 = none) := by
  have hclass : (fun i => (classify (fetch i)).2)
      = (fun i => (get_residency_info (fetch i)).toOption) :=
    funext (fun i => classify_snd (fetch i))
  have hscrape : scrape fetch
      = (List.range' 1 (LAST_ID - 1)).filterMap
          (fun i => (get_residency_info (fetch i)).toOption) := by
    rw [scrape]
    rw [foldl_loopBody (fun i => (classify (fetch i)).2)]
    rw [List.nil_append]
    rw [hclass]
  refine ⟨?_, hscrape, ?_, ?_, ?_, rfl, ?_⟩
  · simp [scrapeLog]
  · rw [hscrape]
    exact length_filterMap_eq_filter _ _
  · exact List.Pairwise.filter _ (List.pairwise_lt_range' 1 (LAST_ID - 1))
  · intro text h
    have hg : get_residency_info (HttpOutcome.response OK text)
        = .error PyErr.authError :=
      gri_of_page_error _ _ (scrape_page_auth text h)
    have hr : get_residency_info HttpOutcome.readTimeout
        = .error PyErr.readTimeout := rfl
    simp only [classify, hg, hr]
  · intro out e h
    rw [classify_snd]
    rw [h]
    rfl

theorem C7_driver_witness :
    notAuthorized <:+: ("x".data ++ notAuthorized)
    ∧ classify (HttpOutcome.response OK ("x".data ++ notAuthorized))
        = classify HttpOutcome.readTimeout :=
  ⟨by decide,
    (C7_driver (fun _ => HttpOutcome.connectionError)).2.2.2.2.1
      ("x".data ++ notAuthorized) (by decide)⟩

end ApgoScraper
